import Mathlib

/-!
Verification of the GradientVideo frame-compositor / export pipeline.

Shallow embedding of the TypeScript source of the repository:
* geometry (display size, crop constraint, shadow geometry, export-dimension
  quality clamp) is embedded over the rationals, with JS `Math.round x`
  modelled as `Int.floor (x + 1/2)`;
* the crop-overlay drag interaction, the crop-mode editor transitions and the
  gradient color-list operations are embedded as pure state transformers;
* the asynchronous export orchestration (`exportVideo` in the preview
  component) is embedded as a pure function of an environment that records at
  which cancellation checkpoint the cancel flag is first observed and which
  transcoding steps fail.
-/

namespace GradientVideo

/-- JS `Math.round`: round half towards positive infinity. -/
def jsRound (x : ℚ) : ℤ := Int.floor (x + 1/2)

/-- Truncation towards zero, as used by the ffmpeg `trunc` expression. -/
def jsTrunc (x : ℚ) : ℤ := if x < 0 then -Int.floor (-x) else Int.floor x

/-- `CropRegion` from `types.ts`: a percentage-based rectangle. -/
structure CropRegion where
  x : ℚ
  y : ℚ
  width : ℚ
  height : ℚ
deriving DecidableEq, Repr

/-- `constrainCrop` from `CropOverlay.tsx` lines 111-118.  Each field is
clamped using the other fields of the INPUT (`newCrop.width`, `newCrop.x`, ...),
not the already-clamped ones. -/
def constrainCrop (newCrop : CropRegion) : CropRegion :=
  { x := max 0 (min (100 - newCrop.width) newCrop.x)
    y := max 0 (min (100 - newCrop.height) newCrop.y)
    width := max 5 (min (100 - newCrop.x) newCrop.width)
    height := max 5 (min (100 - newCrop.y) newCrop.height) }

/-- The invariant package claimed for a constrained crop region. -/
def CropValid (r : CropRegion) : Prop :=
  0 ≤ r.x ∧ r.x ≤ 100 - r.width ∧ 0 ≤ r.y ∧ r.y ≤ 100 - r.height ∧
    5 ≤ r.width ∧ 5 ≤ r.height ∧ r.x + r.width ≤ 100 ∧ r.y + r.height ≤ 100

instance (r : CropRegion) : Decidable (CropValid r) := by
  unfold CropValid; infer_instance

/-- Display-size computation from `VideoPreview` (`src/unnamed/part_000` lines
780-814): constrain the natural size by `window.innerHeight * 0.7` first; for
portrait sources re-derive from the 400px minimum width and re-check the
height ceiling; finally multiply both axes by the configured scale.  Returns
`(displayWidth, displayHeight)`. -/
def resolveDisplaySize (naturalW naturalH scale innerHeight : ℚ) : ℚ × ℚ :=
  let maxHeightPx := innerHeight * (7/10)
  let minWidthPx : ℚ := 400
  let aspectRatio := naturalW / naturalH
  let p1 : ℚ × ℚ :=
    if maxHeightPx < naturalH then (maxHeightPx * aspectRatio, maxHeightPx)
    else (naturalW, naturalH)
  let p2 : ℚ × ℚ :=
    if naturalW < naturalH ∧ p1.1 < minWidthPx then
      if maxHeightPx < minWidthPx / aspectRatio then
        (maxHeightPx * aspectRatio, maxHeightPx)
      else (minWidthPx, minWidthPx / aspectRatio)
    else p1
  (p2.1 * scale, p2.2 * scale)

/-- The mutable dimension variables of `exportVideo` (`src/unnamed/part_000`
lines 1114-1193), after the padded total size has been computed. -/
structure ExportDims where
  totalWidth : ℚ
  totalHeight : ℚ
  videoWidth : ℚ
  videoHeight : ℚ
  scaleFactor : ℚ
deriving DecidableEq, Repr

/-- The quality clamp of `exportVideo` (`src/unnamed/part_000` lines
1176-1190): when the padded total size exceeds the tier ceiling, every
dimension is rounded after scaling by
`canvasScale = min (maxWidth / totalWidth) (maxHeight / totalHeight)` and the
scale factor is multiplied by `canvasScale` (the `widthScale`,
`heightScale` and `canvasScale` let-bindings of the source are inlined here). -/
def clampStep (maxWidth maxHeight : ℚ) (d : ExportDims) : ExportDims :=
  if maxWidth < d.totalWidth ∨ maxHeight < d.totalHeight then
    { totalWidth :=
        (jsRound (d.totalWidth * min (maxWidth / d.totalWidth) (maxHeight / d.totalHeight)) : ℚ)
      totalHeight :=
        (jsRound (d.totalHeight * min (maxWidth / d.totalWidth) (maxHeight / d.totalHeight)) : ℚ)
      videoWidth :=
        (jsRound (d.videoWidth * min (maxWidth / d.totalWidth) (maxHeight / d.totalHeight)) : ℚ)
      videoHeight :=
        (jsRound (d.videoHeight * min (maxWidth / d.totalWidth) (maxHeight / d.totalHeight)) : ℚ)
      scaleFactor :=
        d.scaleFactor * min (maxWidth / d.totalWidth) (maxHeight / d.totalHeight) }
  else d

/-- Export quality tier. -/
inductive Quality
  | q720
  | q1080
  | q1440
deriving DecidableEq, Repr

/-- The `qualityLimits` table of `exportVideo` (`src/unnamed/part_000` lines
1153-1175), selected by orientation; returns `(maxWidth, maxHeight)`. -/
def qualityLimits (q : Quality) (isPortrait : Bool) : ℚ × ℚ :=
  match q, isPortrait with
  | .q720, false => (1280, 720)
  | .q720, true => (720, 1280)
  | .q1080, false => (1920, 1080)
  | .q1080, true => (1080, 1920)
  | .q1440, false => (2560, 1440)
  | .q1440, true => (1440, 2560)

/-- Export-dimension resolution from `exportVideo` (`src/unnamed/part_000`
lines 1144-1193): total size is the video size plus twice the scaled padding;
orientation is decided from the (possibly cropped) original video dimensions;
then the quality clamp is applied. -/
def resolveExportDimensions (videoWidth videoHeight padding scaleFactor : ℚ)
    (q : Quality) : ExportDims :=
  let scaledPadding := padding * scaleFactor
  let lim :=
    if videoWidth < videoHeight then qualityLimits q true else qualityLimits q false
  clampStep lim.1 lim.2
    { totalWidth := videoWidth + scaledPadding * 2
      totalHeight := videoHeight + scaledPadding * 2
      videoWidth := videoWidth
      videoHeight := videoHeight
      scaleFactor := scaleFactor }

/-- One axis of the transcoder scale filter
`trunc(min(limit,dim)/2)*2` (`src/unnamed/part_000` line 1578), which forces
even output dimensions capped at the tier limit. -/
def ffmpegScaleDim (limit dim : ℚ) : ℤ := 2 * jsTrunc (min limit dim / 2)

/-- Shadow and canvas geometry computed by `drawFrame` in the preview
component (`src/unnamed/part_000` lines 948-975). -/
structure FrameGeom where
  radius : ℚ
  blur : ℚ
  offsetY : ℚ
  opacity : ℚ
  shadowPadding : ℚ
  canvasWidth : ℚ
  canvasHeight : ℚ
deriving DecidableEq, Repr

/-- The geometry block of `drawFrame` (`src/unnamed/part_000` lines 948-975):
`shadowPadding = padding * scaleFactor`, `maxShadowBlur = shadowPadding * 0.9`,
`blur = shadow / 20 * maxShadowBlur`, `offsetY = blur * 0.3`,
`opacity = min 0.7 (shadow / 20 * 0.7)`, and the canvas is the video size plus
`2 * shadowPadding` on each axis. -/
def drawFrameGeometry (videoW videoH borderRadius padding shadow scaleFactor : ℚ) :
    FrameGeom :=
  let radius := borderRadius * scaleFactor
  let scaledPadding := padding * scaleFactor
  let shadowPadding := scaledPadding
  let maxShadowBlur := shadowPadding * (9/10)
  let shadowBlur := shadow / 20 * maxShadowBlur
  { radius := radius
    blur := shadowBlur
    offsetY := shadowBlur * (3/10)
    opacity := min (7/10) (shadow / 20 * (7/10))
    shadowPadding := shadowPadding
    canvasWidth := videoW + shadowPadding * 2
    canvasHeight := videoH + shadowPadding * 2 }

/-- The drag handles of `CropOverlay.tsx`. -/
inductive DragHandle
  | move
  | nw
  | ne
  | sw
  | se
  | n
  | s
  | e
  | w
deriving DecidableEq, Repr

/-- A mouse event, reduced to the client coordinates the drag handlers read. -/
structure MouseEvt where
  clientX : ℚ
  clientY : ℚ
deriving DecidableEq, Repr

/-- The video bounds captured at drag start (`dragBoundsRef`). -/
structure DragBounds where
  videoWidth : ℚ
  videoHeight : ℚ
deriving DecidableEq, Repr

/-- The `dragStart` state of `CropOverlay.tsx`: pointer position and crop at
mouse-down. -/
structure DragStart where
  x : ℚ
  y : ℚ
  crop : CropRegion
deriving DecidableEq, Repr

/-- The switch of `handleMouseMove` (`CropOverlay.tsx` lines 132-180): the new
unconstrained region computed from the drag-start crop and the cumulative
pointer delta, per handle. -/
def dragRegion (handle : DragHandle) (start : DragStart) (bounds : DragBounds)
    (e : MouseEvt) : CropRegion :=
  let deltaXPercent := (e.clientX - start.x) / bounds.videoWidth * 100
  let deltaYPercent := (e.clientY - start.y) / bounds.videoHeight * 100
  let c := start.crop
  match handle with
  | .move => { c with x := c.x + deltaXPercent, y := c.y + deltaYPercent }
  | .nw =>
    { x := c.x + deltaXPercent
      y := c.y + deltaYPercent
      width := c.width - deltaXPercent
      height := c.height - deltaYPercent }
  | .ne =>
    { c with
      y := c.y + deltaYPercent
      width := c.width + deltaXPercent
      height := c.height - deltaYPercent }
  | .sw =>
    { c with
      x := c.x + deltaXPercent
      width := c.width - deltaXPercent
      height := c.height + deltaYPercent }
  | .se =>
    { c with width := c.width + deltaXPercent, height := c.height + deltaYPercent }
  | .n => { c with y := c.y + deltaYPercent, height := c.height - deltaYPercent }
  | .s => { c with height := c.height + deltaYPercent }
  | .e => { c with width := c.width + deltaXPercent }
  | .w => { c with x := c.x + deltaXPercent, width := c.width - deltaXPercent }

/-- One `handleMouseMove` call (`CropOverlay.tsx` lines 124-188) acting on the
pair (local crop state, list of regions delivered to the parent so far): the
local crop is replaced by the constrained drag region and NOTHING is emitted
(`setLocalCrop` only; `onCropChange` is not called). -/
def mouseMoveStep (handle : DragHandle) (start : DragStart) (bounds : DragBounds)
    (st : CropRegion × List CropRegion) (e : MouseEvt) : CropRegion × List CropRegion :=
  (constrainCrop (dragRegion handle start bounds e), st.2)

/-- A whole drag session: a sequence of `handleMouseMove` events followed by
`handleMouseUp` (`CropOverlay.tsx` lines 190-211), which delivers the current
local crop to the parent exactly once.  Returns the final local crop and the
full list of regions delivered to the parent. -/
def runDragSession (handle : DragHandle) (start : DragStart) (bounds : DragBounds)
    (initLocal : CropRegion) (moves : List MouseEvt) : CropRegion × List CropRegion :=
  let st := moves.foldl (mouseMoveStep handle start bounds) (initLocal, [])
  (st.1, st.2 ++ [st.1])

/-- The `crop` field of `VideoConfig` from `types.ts`. -/
structure CropConfig where
  enabled : Bool
  cropMode : Bool
  region : CropRegion
deriving DecidableEq, Repr

/-- The app-level crop state: the `config.crop` React state plus the
`savedCropRegionRef` ref (`src/unnamed/part_000` lines 22-23). -/
structure AppCropState where
  crop : CropConfig
  savedCropRegion : Option CropRegion
deriving DecidableEq, Repr

/-- The full-frame crop region used as the fallback saved region. -/
def fullRegion : CropRegion := { x := 0, y := 0, width := 100, height := 100 }

/-- `enterCropMode` (`src/unnamed/part_000` lines 73-93): save the current
region when crop is enabled, the full frame otherwise; turn crop mode on and
start editing from the saved region. -/
def enterCropMode (s : AppCropState) : AppCropState :=
  let saved := if s.crop.enabled then s.crop.region else fullRegion
  { crop := { s.crop with cropMode := true, region := saved }
    savedCropRegion := some saved }

/-- `updateCrop` (`src/unnamed/part_000` lines 60-71): replace the region,
touching nothing else. -/
def updateCrop (region : CropRegion) (s : AppCropState) : AppCropState :=
  { s with crop := { s.crop with region := region } }

/-- `cancelCrop` (`src/unnamed/part_000` lines 110-129): leave crop mode,
revert the region to the saved one (full frame if none), clear the ref. -/
def cancelCrop (s : AppCropState) : AppCropState :=
  { crop :=
      { s.crop with
        cropMode := false
        region := s.savedCropRegion.getD fullRegion }
    savedCropRegion := none }

/-- A sequence of region edits applied while in crop mode. -/
def applyCropEdits (edits : List CropRegion) (s : AppCropState) : AppCropState :=
  edits.foldl (fun t r => updateCrop r t) s

/-- `GradientType` from `types.ts` (the `type` field). -/
inductive GradientType
  | linear
  | radial
  | mesh
deriving DecidableEq, Repr

/-- `GradientSettings` from `types.ts` (`type` is called `gtype` here). -/
structure GradientSettings where
  gtype : GradientType
  colors : List String
  angle : ℚ
deriving DecidableEq, Repr

/-- `PRESET_GRADIENTS` from `constants.tsx` lines 3-12. -/
def PRESET_GRADIENTS : List GradientSettings :=
  [ { gtype := .linear, colors := ["#833ab4", "#fd1d1d", "#fcb045"], angle := 45 }
  , { gtype := .linear, colors := ["#4f46e5", "#7c3aed"], angle := 45 }
  , { gtype := .linear, colors := ["#ec4899", "#f43f5e"], angle := 135 }
  , { gtype := .linear, colors := ["#06b6d4", "#3b82f6"], angle := 225 }
  , { gtype := .linear, colors := ["#10b981", "#3b82f6"], angle := 0 }
  , { gtype := .linear, colors := ["#f59e0b", "#ef4444"], angle := 90 }
  , { gtype := .linear, colors := ["#000000", "#434343"], angle := 45 }
  , { gtype := .linear, colors := ["#00d2ff", "#3a7bd5"], angle := 45 } ]

/-- `addColor` from the sidebar (`src/unnamed/part_000` lines 287-289):
append one white stop. -/
def addColorOp (colors : List String) : List String := colors ++ ["#ffffff"]

/-- `removeColor` from the sidebar (`src/unnamed/part_000` lines 291-296):
drop the stop at `index` only when more than two stops remain (the
`filter((_, i) => i !== index)` of the source equals `eraseIdx index`). -/
def removeColorOp (index : ℕ) (colors : List String) : List String :=
  if 2 < colors.length then colors.eraseIdx index else colors

/-- `handleColorChange` from the sidebar (`src/unnamed/part_000` lines
281-285): overwrite the stop at `index`. -/
def setColorOp (index : ℕ) (color : String) (colors : List String) : List String :=
  colors.set index color

/-- Color lists reachable in the UI: the colors of any preset, closed under add,
remove and recolor. -/
inductive ReachableColors : List String → Prop
  | preset (g : GradientSettings) (hg : g ∈ PRESET_GRADIENTS) : ReachableColors g.colors
  | add (colors : List String) :
      ReachableColors colors → ReachableColors (addColorOp colors)
  | remove (index : ℕ) (colors : List String) :
      ReachableColors colors → ReachableColors (removeColorOp index colors)
  | recolor (index : ℕ) (color : String) (colors : List String) :
      ReachableColors colors → ReachableColors (setColorOp index color colors)

/-- The color-stop step `1 / (colors.length - 1)` of `createGradient`
(`src/unnamed/part_000` line 1232). -/
def gradientColorStep (colors : List String) : ℚ := 1 / ((colors.length : ℚ) - 1)

/-- Export target format. -/
inductive ExpFormat
  | webm
  | mp4
deriving DecidableEq, Repr

/-- Environment of one `exportVideo` run (`src/unnamed/part_000` lines
1079-1749).  `cancelPoint = some j` means the cancellation flag turns true
just before checkpoint `j` and stays true (the flag is monotone); the
checkpoints, in the order the run reaches them, are
0 = after the metadata wait (line 1398), 1 = top of `recordFrame` (line 1689),
2 = top of `onstop` (line 1450), 3 = after the ffmpeg load (line 1513),
4 = after `writeFile` (line 1524).  The Booleans select which fallible
transcoding steps fail. -/
structure ExportEnv where
  format : ExpFormat
  cancelPoint : Option ℕ
  chunksEmpty : Bool
  ffmpegLoadFails : Bool
  loadErrMsg : String
  inputEmpty : Bool
  execFails : Bool
  execErrMsg : String
  outputEmpty : Bool
deriving DecidableEq, Repr

/-- Whether `isCancelled()` returns true at checkpoint `k`. -/
def cancelledAt (env : ExportEnv) (k : ℕ) : Bool :=
  match env.cancelPoint with
  | some j => decide (j ≤ k)
  | none => false

/-- Terminal outcome of one `exportVideo` run: the bare early `return` of the
preparation-stage cancel check, a rejection of `recordingPromise`, a clean
resolution, or a resolution after the WebM fallback with its alert text. -/
inductive ExportOutcome
  | earlyReturn
  | rejected (msg : String)
  | resolvedOk
  | resolvedFallback (alertMsg : String)
deriving DecidableEq, Repr

/-- Observable result of one `exportVideo` run: which files were saved (via
the anchor-click download), whether `video.loop` was restored to its
pre-export value, whether `video.pause()` was called, and the outcome. -/
structure ExportResult where
  downloads : List ExpFormat
  loopRestored : Bool
  pauseCalled : Bool
  outcome : ExportOutcome
deriving DecidableEq, Repr

/-- The fallback alert emitted by both catch blocks
(`src/unnamed/part_000` lines 1649-1651 and 1669-1671). -/
def fallbackAlert (msg : String) : String :=
  "MP4 conversion failed: " ++ msg ++ ". Downloaded as WebM instead."

/-- The message of the first failing transcode step, in source order: ffmpeg
load, empty-input verification, `ffmpeg.exec`, empty-output verification. -/
def transcodeError (env : ExportEnv) : String :=
  if env.ffmpegLoadFails then env.loadErrMsg
  else if env.inputEmpty then "Input WebM file is empty!"
  else if env.execFails then env.execErrMsg
  else "FFmpeg conversion produced empty output file"

/-- The control flow of `exportVideo` (`src/unnamed/part_000` lines
1384-1746), branch by branch:
* cancel observed at checkpoint 0 (line 1398): restore loop, bare return;
* cancel observed at checkpoint 1 (line 1689): stop recorder, restore loop,
  pause; `onstop` then rejects with "Export cancelled" (line 1452);
* cancel observed at checkpoint 2 (line 1450): reject "Export cancelled";
* zero chunks (line 1457): reject "No video data recorded";
* webm target (line 1468): download the WebM, resolve;
* mp4 target: ffmpeg load failure, a cancel observed at checkpoint 3 or 4,
  empty input, `exec` failure or empty output all land in a catch block that
  downloads the WebM and alerts the fallback message (lines 1634-1675);
  otherwise the MP4 is downloaded and the run resolves. -/
def exportRun (env : ExportEnv) : ExportResult :=
  if cancelledAt env 0 then
    { downloads := [], loopRestored := true, pauseCalled := false,
      outcome := .earlyReturn }
  else if cancelledAt env 1 then
    { downloads := [], loopRestored := true, pauseCalled := true,
      outcome := .rejected "Export cancelled" }
  else if cancelledAt env 2 then
    { downloads := [], loopRestored := true, pauseCalled := false,
      outcome := .rejected "Export cancelled" }
  else if env.chunksEmpty then
    { downloads := [], loopRestored := true, pauseCalled := false,
      outcome := .rejected "No video data recorded" }
  else
    match env.format with
    | .webm =>
      { downloads := [.webm], loopRestored := true, pauseCalled := false,
        outcome := .resolvedOk }
    | .mp4 =>
      if env.ffmpegLoadFails then
        { downloads := [.webm], loopRestored := true, pauseCalled := false,
          outcome := .resolvedFallback (fallbackAlert env.loadErrMsg) }
      else if cancelledAt env 3 then
        { downloads := [.webm], loopRestored := true, pauseCalled := false,
          outcome := .resolvedFallback (fallbackAlert "Export cancelled") }
      else if cancelledAt env 4 then
        { downloads := [.webm], loopRestored := true, pauseCalled := false,
          outcome := .resolvedFallback (fallbackAlert "Export cancelled") }
      else if env.inputEmpty then
        { downloads := [.webm], loopRestored := true, pauseCalled := false,
          outcome := .resolvedFallback (fallbackAlert "Input WebM file is empty!") }
      else if env.execFails then
        { downloads := [.webm], loopRestored := true, pauseCalled := false,
          outcome := .resolvedFallback (fallbackAlert env.execErrMsg) }
      else if env.outputEmpty then
        { downloads := [.webm], loopRestored := true, pauseCalled := false,
          outcome := .resolvedFallback
            (fallbackAlert "FFmpeg conversion produced empty output file") }
      else
        { downloads := [.mp4], loopRestored := true, pauseCalled := false,
          outcome := .resolvedOk }

end GradientVideo

namespace GradientVideo

lemma max_min_sum_le (x w : ℚ) (hx : 0 ≤ x) (hw : 5 ≤ w) :
    max 0 (min (100 - w) x) + max 5 (min (100 - x) w) ≤ 100 := by
  have hA1 : min (100 - w) x ≤ 100 - w := min_le_left _ _
  have hA2 : min (100 - w) x ≤ x := min_le_right _ _
  have hB1 : min (100 - x) w ≤ 100 - x := min_le_left _ _
  have hB2 : min (100 - x) w ≤ w := min_le_right _ _
  rcases max_cases (0 : ℚ) (min (100 - w) x) with ⟨h1, h2⟩ | ⟨h1, h2⟩ <;>
    rcases max_cases (5 : ℚ) (min (100 - x) w) with ⟨h3, h4⟩ | ⟨h3, h4⟩ <;>
      rw [h1, h3] <;> linarith

/-- Claim C3, counterexample: on the unconstrained drag output
`{x := -50, y := 100, width := 150, height := 0}` (reachable from a `w`-handle
drag of a full-frame crop), `constrainCrop` returns
`{x := 0, y := 100, width := 150, height := 5}`, which violates
`x + width ≤ 100` and `y + height ≤ 100`. -/
theorem constrainCrop_not_valid_on_arbitrary :
    ¬ CropValid (constrainCrop ⟨-50, 100, 150, 0⟩) := by
  norm_num [constrainCrop, CropValid]

/-- Claim C3 (amended): for every `CropRegion` whose origin is nonnegative and
whose extent is at least the 5 percent floor (fields may still exceed 100, as
unconstrained drag deltas produce), `constrainCrop` returns a region with
`x ∈ [0, 100-width]`, `y ∈ [0, 100-height]`, `width ≥ 5`, `height ≥ 5`,
`x+width ≤ 100` and `y+height ≤ 100`. -/
theorem constrainCrop_valid (r : CropRegion) (hx : 0 ≤ r.x) (hy : 0 ≤ r.y)
    (hw : 5 ≤ r.width) (hh : 5 ≤ r.height) :
    CropValid (constrainCrop r) := by
  have hsx := max_min_sum_le r.x r.width hx hw
  have hsy := max_min_sum_le r.y r.height hy hh
  unfold constrainCrop CropValid
  dsimp only
  exact ⟨le_max_left _ _, by linarith, le_max_left _ _, by linarith,
    le_max_left _ _, le_max_left _ _, hsx, hsy⟩

/-- Claim C3 witness: the amended theorem applied to the full-frame region. -/
theorem constrainCrop_valid_witness :
    (0 : ℚ) ≤ 0 ∧ (5 : ℚ) ≤ 100 ∧ CropValid (constrainCrop ⟨0, 0, 100, 100⟩) :=
  ⟨le_refl 0, by norm_num,
    constrainCrop_valid ⟨0, 0, 100, 100⟩ (le_refl 0) (le_refl 0) (by norm_num) (by norm_num)⟩

/-- Claim C5, counterexample: for a 1920×1080 natural size, scale 1, and a
1000px-tall viewport, the code clamps the HEIGHT to 700 and derives the width
from the aspect ratio, giving (11200/9, 700) ≈ (1244.4, 700) — not 700×393
under any reading of that pair. -/
theorem resolveDisplaySize_1920x1080_not_700x393 :
    resolveDisplaySize 1920 1080 1 1000 = (11200/9, 700) ∧
      (11200/9 : ℚ) ≠ 700 ∧ (700 : ℚ) ≠ 393 ∧ (11200/9 : ℚ) ≠ 393 := by
  refine ⟨?_, by norm_num, by norm_num, by norm_num⟩
  unfold resolveDisplaySize
  norm_num

/-- Claim C5 (amended): for a natural size of 1920×1080 with scale 1 and a
1000px-tall viewport, the height is clamped to 0.7 × 1000 = 700 and the width
re-derived as 700 × 1920/1080 = 11200/9 ≈ 1244, preserving the aspect ratio
exactly. -/
theorem resolveDisplaySize_1920x1080 :
    resolveDisplaySize 1920 1080 1 1000 = (11200/9, 700) ∧
      (11200/9 : ℚ) / 700 = 1920 / 1080 := by
  constructor
  · unfold resolveDisplaySize
    norm_num
  · norm_num

/-- Claim C7: for every padding, scale factor and video size, shadow
intensity 0 gives blur 0 and opacity 0, while the canvas dimensions agree
with those at shadow intensity 20 and the same padding — canvas size never
depends on the shadow setting. -/
theorem shadow_zero_blur_opacity_same_canvas
    (videoW videoH borderRadius padding scaleFactor : ℚ) :
    (drawFrameGeometry videoW videoH borderRadius padding 0 scaleFactor).blur = 0 ∧
      (drawFrameGeometry videoW videoH borderRadius padding 0 scaleFactor).opacity = 0 ∧
      (drawFrameGeometry videoW videoH borderRadius padding 0 scaleFactor).canvasWidth =
        (drawFrameGeometry videoW videoH borderRadius padding 20 scaleFactor).canvasWidth ∧
      (drawFrameGeometry videoW videoH borderRadius padding 0 scaleFactor).canvasHeight =
        (drawFrameGeometry videoW videoH borderRadius padding 20 scaleFactor).canvasHeight := by
  refine ⟨?_, ?_, rfl, rfl⟩
  · show (0 : ℚ) / 20 * (padding * scaleFactor * (9/10)) = 0
    norm_num
  · show min (7/10 : ℚ) ((0 : ℚ) / 20 * (7/10)) = 0
    rw [show (0 : ℚ) / 20 * (7/10) = 0 by norm_num]
    exact min_eq_right (by norm_num)

lemma jsRound_le_intCast {x : ℚ} {c : ℤ} (h : x ≤ c) : ((jsRound x : ℤ) : ℚ) ≤ c := by
  unfold jsRound
  have h2 : Int.floor (x + 1/2) < c + 1 := by
    apply Int.floor_lt.mpr
    push_cast
    linarith
  have h3 : Int.floor (x + 1/2) ≤ c := by omega
  exact_mod_cast h3

lemma jsRound_intCast (c : ℤ) : jsRound (c : ℚ) = c := by
  unfold jsRound
  rw [Int.floor_eq_iff]
  constructor
  · linarith
  · linarith

lemma clampStep_eq_self (maxW maxH : ℚ) (d : ExportDims)
    (h1 : d.totalWidth ≤ maxW) (h2 : d.totalHeight ≤ maxH) :
    clampStep maxW maxH d = d := by
  unfold clampStep
  rw [if_neg]
  push_neg
  exact ⟨h1, h2⟩

lemma clampStep_bounds (maxW maxH : ℕ) (d : ExportDims)
    (hW : 0 < d.totalWidth) (hH : 0 < d.totalHeight) :
    (clampStep maxW maxH d).totalWidth ≤ (maxW : ℚ) ∧
      (clampStep maxW maxH d).totalHeight ≤ (maxH : ℚ) := by
  unfold clampStep
  split_ifs with h
  · dsimp only
    constructor
    · apply jsRound_le_intCast (c := (maxW : ℤ))
      have hle : min ((maxW : ℚ) / d.totalWidth) ((maxH : ℚ) / d.totalHeight) ≤
          (maxW : ℚ) / d.totalWidth := min_le_left _ _
      have hmul : d.totalWidth * min ((maxW : ℚ) / d.totalWidth) ((maxH : ℚ) / d.totalHeight) ≤
          d.totalWidth * ((maxW : ℚ) / d.totalWidth) :=
        mul_le_mul_of_nonneg_left hle hW.le
      have heq : d.totalWidth * ((maxW : ℚ) / d.totalWidth) = (maxW : ℚ) := by
        field_simp
      push_cast
      linarith
    · apply jsRound_le_intCast (c := (maxH : ℤ))
      have hle : min ((maxW : ℚ) / d.totalWidth) ((maxH : ℚ) / d.totalHeight) ≤
          (maxH : ℚ) / d.totalHeight := min_le_right _ _
      have hmul : d.totalHeight * min ((maxW : ℚ) / d.totalWidth) ((maxH : ℚ) / d.totalHeight) ≤
          d.totalHeight * ((maxH : ℚ) / d.totalHeight) :=
        mul_le_mul_of_nonneg_left hle hH.le
      have heq : d.totalHeight * ((maxH : ℚ) / d.totalHeight) = (maxH : ℚ) := by
        field_simp
      push_cast
      linarith
  · push_neg at h
    exact h

/-- Claim C6: the export quality clamp is idempotent — feeding the total
size, video size and scale factor produced by one application of the clamp
back into it leaves them unchanged, because the once-clamped total size
already satisfies the tier ceiling. -/
theorem clampStep_idempotent (maxW maxH : ℕ) (d : ExportDims)
    (hW : 0 < d.totalWidth) (hH : 0 < d.totalHeight)
    (htrig : (maxW : ℚ) < d.totalWidth ∨ (maxH : ℚ) < d.totalHeight) :
    clampStep maxW maxH (clampStep maxW maxH d) = clampStep maxW maxH d := by
  obtain ⟨h1, h2⟩ := clampStep_bounds maxW maxH d hW hH
  exact clampStep_eq_self _ _ _ h1 h2

lemma ffmpegScaleDim_even (limit dim : ℚ) : ∃ k : ℤ, ffmpegScaleDim limit dim = 2 * k :=
  ⟨jsTrunc (min limit dim / 2), rfl⟩

/-- Claim C4: a 4000×3000 landscape source exported at 720p with any
nonnegative padding and positive scale factor yields output dimensions within
1280×720 (the height lands exactly on 720), the aspect ratio of the padded
composite is preserved to within 1px of rounding, and the transcoder scale
filter delivers even pixel dimensions. -/
theorem exportDimensions_4000x3000_720p (padding scaleFactor : ℚ)
    (hp : 0 ≤ padding) (hsf : 0 < scaleFactor) :
    (resolveExportDimensions 4000 3000 padding scaleFactor Quality.q720).totalWidth ≤ 1280 ∧
      (resolveExportDimensions 4000 3000 padding scaleFactor Quality.q720).totalHeight = 720 ∧
      |(resolveExportDimensions 4000 3000 padding scaleFactor Quality.q720).totalWidth -
          720 * (4000 + padding * scaleFactor * 2) / (3000 + padding * scaleFactor * 2)| ≤ 1 ∧
      (∃ k : ℤ, ffmpegScaleDim 1280
        (resolveExportDimensions 4000 3000 padding scaleFactor Quality.q720).totalWidth = 2 * k) ∧
      (∃ k : ℤ, ffmpegScaleDim 720
        (resolveExportDimensions 4000 3000 padding scaleFactor Quality.q720).totalHeight = 2 * k) := by
  have hsp0 : 0 ≤ padding * scaleFactor := mul_nonneg hp hsf.le
  have hT : (0 : ℚ) < 3000 + padding * scaleFactor * 2 := by linarith
  have hW0 : (0 : ℚ) < 4000 + padding * scaleFactor * 2 := by linarith
  have hmin : min ((1280 : ℚ) / (4000 + padding * scaleFactor * 2))
      ((720 : ℚ) / (3000 + padding * scaleFactor * 2)) =
        720 / (3000 + padding * scaleFactor * 2) := by
    apply min_eq_right
    rw [div_le_div_iff hT hW0]
    nlinarith
  have e : resolveExportDimensions 4000 3000 padding scaleFactor Quality.q720 =
      ⟨(jsRound ((4000 + padding * scaleFactor * 2) *
          (720 / (3000 + padding * scaleFactor * 2))) : ℚ),
        (jsRound ((3000 + padding * scaleFactor * 2) *
          (720 / (3000 + padding * scaleFactor * 2))) : ℚ),
        (jsRound (4000 * (720 / (3000 + padding * scaleFactor * 2))) : ℚ),
        (jsRound (3000 * (720 / (3000 + padding * scaleFactor * 2))) : ℚ),
        scaleFactor * (720 / (3000 + padding * scaleFactor * 2))⟩ := by
    unfold resolveExportDimensions
    rw [if_neg (by norm_num : ¬ (4000 : ℚ) < 3000)]
    unfold qualityLimits clampStep
    dsimp only
    rw [if_pos (Or.inl (by linarith : (1280 : ℚ) < 4000 + padding * scaleFactor * 2))]
    rw [hmin]
  have hfix : (3000 + padding * scaleFactor * 2) *
      (720 / (3000 + padding * scaleFactor * 2)) = 720 := by
    field_simp
  have h720 : ((jsRound ((3000 + padding * scaleFactor * 2) *
      (720 / (3000 + padding * scaleFactor * 2))) : ℤ) : ℚ) = 720 := by
    rw [hfix, show ((720 : ℚ)) = ((720 : ℤ) : ℚ) by norm_num, jsRound_intCast]
  have hw960 : (4000 + padding * scaleFactor * 2) *
      (720 / (3000 + padding * scaleFactor * 2)) ≤ 960 := by
    rw [← mul_div_assoc, div_le_iff hT]
    nlinarith
  have hWle : ((jsRound ((4000 + padding * scaleFactor * 2) *
      (720 / (3000 + padding * scaleFactor * 2))) : ℤ) : ℚ) ≤ 1280 := by
    have h9 := jsRound_le_intCast (c := (960 : ℤ))
      (by exact_mod_cast hw960 :
        (4000 + padding * scaleFactor * 2) *
          (720 / (3000 + padding * scaleFactor * 2)) ≤ ((960 : ℤ) : ℚ))
    have h9c : ((960 : ℤ) : ℚ) = 960 := by norm_num
    rw [h9c] at h9
    linarith
  have hEq : (4000 + padding * scaleFactor * 2) *
      (720 / (3000 + padding * scaleFactor * 2)) =
        720 * (4000 + padding * scaleFactor * 2) / (3000 + padding * scaleFactor * 2) := by
    ring
  have hub : ((jsRound ((4000 + padding * scaleFactor * 2) *
      (720 / (3000 + padding * scaleFactor * 2))) : ℤ) : ℚ) ≤
        (4000 + padding * scaleFactor * 2) *
          (720 / (3000 + padding * scaleFactor * 2)) + 1/2 := by
    unfold jsRound
    exact_mod_cast Int.floor_le ((4000 + padding * scaleFactor * 2) *
      (720 / (3000 + padding * scaleFactor * 2)) + 1/2)
  have hlb : (4000 + padding * scaleFactor * 2) *
      (720 / (3000 + padding * scaleFactor * 2)) - 1/2 <
        ((jsRound ((4000 + padding * scaleFactor * 2) *
          (720 / (3000 + padding * scaleFactor * 2))) : ℤ) : ℚ) := by
    unfold jsRound
    have h := Int.sub_one_lt_floor ((4000 + padding * scaleFactor * 2) *
      (720 / (3000 + padding * scaleFactor * 2)) + 1/2)
    linarith
  rw [e]
  dsimp only
  refine ⟨hWle, h720, ?_, ffmpegScaleDim_even _ _, ffmpegScaleDim_even _ _⟩
  rw [← hEq, abs_le]
  constructor
  · linarith
  · linarith

/-- Claim C4 witness: the clamp theorem applied to padding 60 and scale
factor 2. -/
theorem exportDimensions_4000x3000_720p_witness :
    (0 : ℚ) ≤ 60 ∧ (0 : ℚ) < 2 ∧
      ((resolveExportDimensions 4000 3000 60 2 Quality.q720).totalWidth ≤ 1280 ∧
        (resolveExportDimensions 4000 3000 60 2 Quality.q720).totalHeight = 720 ∧
        |(resolveExportDimensions 4000 3000 60 2 Quality.q720).totalWidth -
            720 * (4000 + 60 * 2 * 2) / (3000 + 60 * 2 * 2)| ≤ 1 ∧
        (∃ k : ℤ, ffmpegScaleDim 1280
          (resolveExportDimensions 4000 3000 60 2 Quality.q720).totalWidth = 2 * k) ∧
        (∃ k : ℤ, ffmpegScaleDim 720
          (resolveExportDimensions 4000 3000 60 2 Quality.q720).totalHeight = 2 * k)) :=
  ⟨by norm_num, by norm_num,
    exportDimensions_4000x3000_720p 60 2 (by norm_num) (by norm_num)⟩

/-- Claim C6 witness: the idempotence theorem applied to a concrete
clamp-triggering input (a padded 4120×3120 composite at the 720p landscape
ceiling). -/
theorem clampStep_idempotent_witness :
    (0 : ℚ) < 4120 ∧ (0 : ℚ) < 3120 ∧ ((1280 : ℕ) : ℚ) < 4120 ∧
      clampStep 1280 720 (clampStep 1280 720 ⟨4120, 3120, 4000, 3000, 1⟩) =
        clampStep 1280 720 ⟨4120, 3120, 4000, 3000, 1⟩ :=
  ⟨by norm_num, by norm_num, by norm_num,
    clampStep_idempotent 1280 720 ⟨4120, 3120, 4000, 3000, 1⟩ (by norm_num) (by norm_num)
      (Or.inl (by norm_num))⟩

lemma foldl_mouseMoveStep_snd (handle : DragHandle) (start : DragStart)
    (bounds : DragBounds) (moves : List MouseEvt) (st : CropRegion × List CropRegion) :
    (moves.foldl (mouseMoveStep handle start bounds) st).2 = st.2 := by
  induction moves generalizing st with
  | nil => rfl
  | cons m ms ih =>
    rw [List.foldl_cons, ih]
    rfl

lemma foldl_mouseMoveStep_fst (handle : DragHandle) (start : DragStart)
    (bounds : DragBounds) (moves : List MouseEvt) (st : CropRegion × List CropRegion)
    (hm : moves ≠ []) :
    (moves.foldl (mouseMoveStep handle start bounds) st).1 =
      constrainCrop (dragRegion handle start bounds (moves.getLast hm)) := by
  induction moves generalizing st with
  | nil => exact absurd rfl hm
  | cons m ms ih =>
    rw [List.foldl_cons]
    cases ms with
    | nil => rfl
    | cons m2 ms2 =>
      rw [ih (mouseMoveStep handle start bounds st m) (List.cons_ne_nil m2 ms2)]
      congr 1

/-- Claim C8: over a whole drag session, no intermediate region is delivered
to the parent — every `handleMouseMove` leaves the delivered list untouched —
and on mouse-up the parent receives exactly one region: the constrained
region computed from the drag start and the last move event. -/
theorem cropOverlay_delivers_once (handle : DragHandle) (start : DragStart)
    (bounds : DragBounds) (initLocal : CropRegion) (moves : List MouseEvt)
    (hm : moves ≠ []) :
    (moves.foldl (mouseMoveStep handle start bounds) (initLocal, [])).2 = [] ∧
      (runDragSession handle start bounds initLocal moves).2 =
        [constrainCrop (dragRegion handle start bounds (moves.getLast hm))] := by
  constructor
  · exact foldl_mouseMoveStep_snd handle start bounds moves (initLocal, [])
  · unfold runDragSession
    dsimp only
    rw [foldl_mouseMoveStep_snd, foldl_mouseMoveStep_fst handle start bounds moves _ hm]
    rfl

/-- Claim C8 witness: a one-move south-east drag of the full-frame crop. -/
theorem cropOverlay_delivers_once_witness :
    (([⟨110, 110⟩] : List MouseEvt) ≠ []) ∧
      (([⟨110, 110⟩] : List MouseEvt).foldl
          (mouseMoveStep DragHandle.se ⟨100, 100, ⟨0, 0, 100, 100⟩⟩ ⟨200, 200⟩)
          (⟨0, 0, 100, 100⟩, [])).2 = [] ∧
      (runDragSession DragHandle.se ⟨100, 100, ⟨0, 0, 100, 100⟩⟩ ⟨200, 200⟩
          ⟨0, 0, 100, 100⟩ [⟨110, 110⟩]).2 =
        [constrainCrop (dragRegion DragHandle.se ⟨100, 100, ⟨0, 0, 100, 100⟩⟩ ⟨200, 200⟩
          (([⟨110, 110⟩] : List MouseEvt).getLast (by simp)))] :=
  ⟨by simp,
    (cropOverlay_delivers_once DragHandle.se ⟨100, 100, ⟨0, 0, 100, 100⟩⟩ ⟨200, 200⟩
      ⟨0, 0, 100, 100⟩ [⟨110, 110⟩] (by simp)).1,
    (cropOverlay_delivers_once DragHandle.se ⟨100, 100, ⟨0, 0, 100, 100⟩⟩ ⟨200, 200⟩
      ⟨0, 0, 100, 100⟩ [⟨110, 110⟩] (by simp)).2⟩

lemma applyCropEdits_preserves (edits : List CropRegion) (s : AppCropState) :
    (applyCropEdits edits s).crop.enabled = s.crop.enabled ∧
      (applyCropEdits edits s).crop.cropMode = s.crop.cropMode ∧
      (applyCropEdits edits s).savedCropRegion = s.savedCropRegion := by
  induction edits generalizing s with
  | nil => exact ⟨rfl, rfl, rfl⟩
  | cons r rs ih =>
    unfold applyCropEdits at ih ⊢
    rw [List.foldl_cons]
    exact ih (updateCrop r s)

/-- Claim C9: entering crop mode, editing the region arbitrarily, then
cancelling leaves crop mode off and `enabled` unchanged, and the region is
restored to its value at entry when crop was enabled, or reset to the
full-frame region when it was not (a configured but disabled region is not
preserved). -/
theorem cancelCrop_restores_region (s : AppCropState) (edits : List CropRegion) :
    (cancelCrop (applyCropEdits edits (enterCropMode s))).crop.cropMode = false ∧
      (cancelCrop (applyCropEdits edits (enterCropMode s))).crop.enabled = s.crop.enabled ∧
      (cancelCrop (applyCropEdits edits (enterCropMode s))).crop.region =
        (if s.crop.enabled then s.crop.region else fullRegion) := by
  obtain ⟨he, hc, hs⟩ := applyCropEdits_preserves edits (enterCropMode s)
  refine ⟨rfl, ?_, ?_⟩
  · show (applyCropEdits edits (enterCropMode s)).crop.enabled = s.crop.enabled
    rw [he]
    rfl
  · show (applyCropEdits edits (enterCropMode s)).savedCropRegion.getD fullRegion =
      (if s.crop.enabled then s.crop.region else fullRegion)
    rw [hs]
    rfl

lemma preset_colors_length : ∀ g ∈ PRESET_GRADIENTS, 2 ≤ g.colors.length := by
  decide

lemma reachable_colors_length (colors : List String) (h : ReachableColors colors) :
    2 ≤ colors.length := by
  induction h with
  | preset g hg => exact preset_colors_length g hg
  | add cs hcs ih =>
    unfold addColorOp
    rw [List.length_append]
    omega
  | remove i cs hcs ih =>
    unfold removeColorOp
    split_ifs with h2
    · rw [List.length_eraseIdx]
      split_ifs <;> omega
    · exact ih
  | recolor i c cs hcs ih =>
    unfold setColorOp
    rw [List.length_set]
    exact ih

/-- Claim C10: every preset has at least two color stops; color lists
reachable from a preset through add/remove/recolor keep at least two stops
(`addColor` appends exactly one, `removeColor` removes one only when more
than two remain and is the identity otherwise), so the color-stop step
`1 / (colors.length - 1)` of `createGradient` never divides by zero in a
reachable state. -/
theorem gradient_colors_invariant :
    (∀ colors, ReachableColors colors → 2 ≤ colors.length ∧
        ((colors.length : ℚ) - 1) ≠ 0 ∧
        gradientColorStep colors * ((colors.length : ℚ) - 1) = 1) ∧
      (∀ colors, (addColorOp colors).length = colors.length + 1) ∧
      (∀ index colors, 2 < (colors : List String).length → index < colors.length →
        (removeColorOp index colors).length = colors.length - 1) ∧
      (∀ index colors, (colors : List String).length ≤ 2 →
        removeColorOp index colors = colors) ∧
      (∀ g ∈ PRESET_GRADIENTS, 2 ≤ g.colors.length) := by
  refine ⟨?_, ?_, ?_, ?_, preset_colors_length⟩
  · intro colors h
    have h2 := reachable_colors_length colors h
    have h2q : (2 : ℚ) ≤ (colors.length : ℚ) := by exact_mod_cast h2
    have hne : ((colors.length : ℚ) - 1) ≠ 0 := by
      intro hc
      rw [sub_eq_zero] at hc
      rw [hc] at h2q
      norm_num at h2q
    refine ⟨h2, hne, ?_⟩
    unfold gradientColorStep
    rw [one_div, inv_mul_cancel₀ hne]
  · intro colors
    unfold addColorOp
    rw [List.length_append]
    rfl
  · intro index colors h2 hi
    unfold removeColorOp
    rw [if_pos h2, List.length_eraseIdx, if_pos hi]
  · intro index colors hle
    unfold removeColorOp
    rw [if_neg (by omega)]

/-- Claim C10 witness: the invariant applied to the colors of the first preset
and the remove-guard clauses applied to concrete lists. -/
theorem gradient_colors_invariant_witness :
    ReachableColors ["#833ab4", "#fd1d1d", "#fcb045"] ∧
      (2 ≤ (["#833ab4", "#fd1d1d", "#fcb045"] : List String).length ∧
        (((["#833ab4", "#fd1d1d", "#fcb045"] : List String).length : ℚ) - 1) ≠ 0 ∧
        gradientColorStep ["#833ab4", "#fd1d1d", "#fcb045"] *
          (((["#833ab4", "#fd1d1d", "#fcb045"] : List String).length : ℚ) - 1) = 1) ∧
      (removeColorOp 0 ["#833ab4", "#fd1d1d", "#fcb045"]).length =
        (["#833ab4", "#fd1d1d", "#fcb045"] : List String).length - 1 ∧
      removeColorOp 0 ["#4f46e5", "#7c3aed"] = ["#4f46e5", "#7c3aed"] :=
  have hreach : ReachableColors ["#833ab4", "#fd1d1d", "#fcb045"] :=
    ReachableColors.preset
      ⟨GradientType.linear, ["#833ab4", "#fd1d1d", "#fcb045"], 45⟩ (by decide)
  ⟨hreach, gradient_colors_invariant.1 _ hreach,
    gradient_colors_invariant.2.2.1 0 ["#833ab4", "#fd1d1d", "#fcb045"]
      (by decide) (by decide),
    gradient_colors_invariant.2.2.2.1 0 ["#4f46e5", "#7c3aed"] (by decide)⟩

/-- Claim C1, counterexample: with the cancellation flag first observed at
checkpoint 3 (mid-transcode, after the ffmpeg load), the run lands in the
generic catch block: the captured WebM IS downloaded (a file-save side
effect), the source is never paused, and the outcome is the fallback alert
"MP4 conversion failed: Export cancelled. ...", not a distinct cancellation
outcome. -/
theorem exportRun_cancel_midTranscode_downloads :
    cancelledAt ⟨ExpFormat.mp4, some 3, false, false, "", false, false, "", false⟩ 3 = true ∧
      (exportRun ⟨ExpFormat.mp4, some 3, false, false, "", false, false, "", false⟩).downloads =
        [ExpFormat.webm] ∧
      (exportRun ⟨ExpFormat.mp4, some 3, false, false, "", false, false, "", false⟩).pauseCalled =
        false ∧
      (exportRun ⟨ExpFormat.mp4, some 3, false, false, "", false, false, "", false⟩).outcome =
        ExportOutcome.resolvedFallback (fallbackAlert "Export cancelled") :=
  ⟨rfl, rfl, rfl, rfl⟩

/-- Claim C1 (amended): if the cancellation flag is first observed during
preparation, recording or at the recorder stop handler (checkpoints 0-2),
the pipeline saves no file, restores the loop flag, and ends in a distinct
cancellation outcome (the bare early return, or a rejection with
"Export cancelled"); the source is paused when cancellation is observed
mid-recording (checkpoint 1).  If it is first observed mid-transcode
(checkpoint 3 or 4) during an otherwise healthy MP4 export, the run instead
falls back to downloading the captured WebM and reports the fallback alert. -/
theorem exportRun_cancellation (env : ExportEnv) (j : ℕ)
    (hj : env.cancelPoint = some j) :
    (j ≤ 2 →
      (exportRun env).downloads = [] ∧ (exportRun env).loopRestored = true ∧
        ((exportRun env).outcome = ExportOutcome.earlyReturn ∨
          (exportRun env).outcome = ExportOutcome.rejected "Export cancelled") ∧
        (j = 1 → (exportRun env).pauseCalled = true)) ∧
      ((j = 3 ∨ j = 4) → env.format = ExpFormat.mp4 → env.chunksEmpty = false →
        env.ffmpegLoadFails = false →
        (exportRun env).downloads = [ExpFormat.webm] ∧
          (exportRun env).outcome =
            ExportOutcome.resolvedFallback (fallbackAlert "Export cancelled")) := by
  constructor
  · intro hj2
    interval_cases j <;> simp [exportRun, cancelledAt, hj]
  · intro h34 hfmt hch hlf
    rcases h34 with h3 | h3 <;> subst h3 <;>
      simp [exportRun, cancelledAt, hj, hfmt, hch, hlf]

/-- Claim C1 witness: the amended theorem applied to a run whose cancellation
flag turns true during recording. -/
theorem exportRun_cancellation_witness :
    (⟨ExpFormat.webm, some 1, false, false, "", false, false, "", false⟩ :
        ExportEnv).cancelPoint = some 1 ∧
      ((1 ≤ 2 →
        (exportRun ⟨ExpFormat.webm, some 1, false, false, "", false, false, "", false⟩).downloads = [] ∧
          (exportRun ⟨ExpFormat.webm, some 1, false, false, "", false, false, "", false⟩).loopRestored = true ∧
          ((exportRun ⟨ExpFormat.webm, some 1, false, false, "", false, false, "", false⟩).outcome =
              ExportOutcome.earlyReturn ∨
            (exportRun ⟨ExpFormat.webm, some 1, false, false, "", false, false, "", false⟩).outcome =
              ExportOutcome.rejected "Export cancelled") ∧
          (1 = 1 →
            (exportRun ⟨ExpFormat.webm, some 1, false, false, "", false, false, "", false⟩).pauseCalled =
              true)) ∧
        ((1 = 3 ∨ 1 = 4) →
          (⟨ExpFormat.webm, some 1, false, false, "", false, false, "", false⟩ :
              ExportEnv).format = ExpFormat.mp4 →
          (⟨ExpFormat.webm, some 1, false, false, "", false, false, "", false⟩ :
              ExportEnv).chunksEmpty = false →
          (⟨ExpFormat.webm, some 1, false, false, "", false, false, "", false⟩ :
              ExportEnv).ffmpegLoadFails = false →
          (exportRun ⟨ExpFormat.webm, some 1, false, false, "", false, false, "", false⟩).downloads =
              [ExpFormat.webm] ∧
            (exportRun ⟨ExpFormat.webm, some 1, false, false, "", false, false, "", false⟩).outcome =
              ExportOutcome.resolvedFallback (fallbackAlert "Export cancelled"))) :=
  ⟨rfl, exportRun_cancellation
    ⟨ExpFormat.webm, some 1, false, false, "", false, false, "", false⟩ 1 rfl⟩

/-- Claim C2: whenever the MP4 transcoding stage fails (engine load failure,
empty input, exec/codec error, or empty output) in a run that was not
cancelled and captured data, the originally captured WebM is still
downloaded, the outcome is a resolution carrying the one-line fallback alert
that names the underlying error, and the loop flag is restored — the export
completes instead of surfacing a terminal failure. -/
theorem exportRun_transcode_fallback (env : ExportEnv)
    (hfmt : env.format = ExpFormat.mp4) (hc : env.cancelPoint = none)
    (hch : env.chunksEmpty = false)
    (hfail : env.ffmpegLoadFails = true ∨ env.inputEmpty = true ∨
      env.execFails = true ∨ env.outputEmpty = true) :
    (exportRun env).downloads = [ExpFormat.webm] ∧
      (exportRun env).outcome =
        ExportOutcome.resolvedFallback (fallbackAlert (transcodeError env)) ∧
      (exportRun env).loopRestored = true := by
  obtain ⟨f, cp, ce, lf, lm, ie, ef, em, oe⟩ := env
  dsimp only at hfmt hc hch hfail ⊢
  subst hfmt
  subst hc
  subst hch
  cases lf <;> cases ie <;> cases ef <;> cases oe <;>
    simp_all [exportRun, cancelledAt, transcodeError]

/-- Claim C2 witness: the fallback theorem applied to a run whose
`ffmpeg.exec` call fails with "codec error". -/
theorem exportRun_transcode_fallback_witness :
    (⟨ExpFormat.mp4, none, false, false, "", false, true, "codec error", false⟩ :
        ExportEnv).format = ExpFormat.mp4 ∧
      (⟨ExpFormat.mp4, none, false, false, "", false, true, "codec error", false⟩ :
        ExportEnv).cancelPoint = none ∧
      (⟨ExpFormat.mp4, none, false, false, "", false, true, "codec error", false⟩ :
        ExportEnv).chunksEmpty = false ∧
      (⟨ExpFormat.mp4, none, false, false, "", false, true, "codec error", false⟩ :
        ExportEnv).execFails = true ∧
      ((exportRun ⟨ExpFormat.mp4, none, false, false, "", false, true, "codec error", false⟩).downloads =
          [ExpFormat.webm] ∧
        (exportRun ⟨ExpFormat.mp4, none, false, false, "", false, true, "codec error", false⟩).outcome =
          ExportOutcome.resolvedFallback (fallbackAlert (transcodeError
            ⟨ExpFormat.mp4, none, false, false, "", false, true, "codec error", false⟩)) ∧
        (exportRun ⟨ExpFormat.mp4, none, false, false, "", false, true, "codec error", false⟩).loopRestored =
          true) :=
  ⟨rfl, rfl, rfl, rfl,
    exportRun_transcode_fallback
      ⟨ExpFormat.mp4, none, false, false, "", false, true, "codec error", false⟩
      rfl rfl rfl (Or.inr (Or.inr (Or.inl rfl)))⟩

end GradientVideo
